import Mathlib

/-!
Verification of the declarative infrastructure program in `src/pulumi/index.ts`.

The program builds an ECS cluster backed by an EC2 auto-scaling group and runs one
NGINX service on it.  Every resource below is a direct transcription of the
argument record passed to the corresponding resource constructor in the source;
cloud-assigned identifiers (ARNs, physical ids) are modelled by the resource's
logical name, and Pulumi `Output` plumbing is modelled by ordinary function
application.
-/

namespace PulumiEcs

/-- Fixed base name (`clusterName` in the source, line 92). -/
def clusterName : String := "dev-cluster"

/-- Arguments of the `random.RandomString` resource used for the cluster suffix
(source lines 96–100). -/
structure RandomStringArgs where
  special : Bool
  upper : Bool
  length : Nat
deriving DecidableEq

/-- The argument record of the random suffix generator: no special characters,
no uppercase, six characters (source lines 96–100). -/
def clusterIdentifierArgs : RandomStringArgs :=
  { special := false, upper := false, length := 6 }

/-- `clusterIdentifier` (source line 100): the `apply` callback turning the random
result `s` into the cluster name. -/
def clusterIdentifier (s : String) : String :=
  clusterName ++ "-" ++ s

/-- One ingress or egress rule of a security group. -/
structure SecurityGroupRule where
  fromPort : Nat
  toPort : Nat
  protocol : String
  cidrBlocks : List String
deriving DecidableEq

/-- Argument record of an `awsx.ec2.SecurityGroup`. -/
structure SecurityGroupArgs where
  description : String
  ingress : List SecurityGroupRule
  egress : List SecurityGroupRule
deriving DecidableEq

/-- `instancesSecurityGroup` (source lines 106–115): the group attached to every
worker instance. -/
def instancesSecurityGroup : SecurityGroupArgs where
  description := "The Security group for all instances that only allow ingress of the Load Balancer."
  ingress := [{ fromPort := 80, toPort := 80, protocol := "tcp", cidrBlocks := ["0.0.0.0/0"] }]
  egress := [{ fromPort := 0, toPort := 65535, protocol := "tcp", cidrBlocks := ["0.0.0.0/0"] }]

/-- Whether a single security-group rule admits traffic of protocol `proto` on
`port` for the address range `cidr` (an AWS rule with protocol `-1` would match
every protocol; the port range is inclusive). -/
def ruleAllows (r : SecurityGroupRule) (proto : String) (port : Nat) (cidr : String) : Bool :=
  (r.protocol == proto || r.protocol == "-1")
    && decide (r.fromPort ≤ port) && decide (port ≤ r.toPort)
    && r.cidrBlocks.contains cidr

/-- Whether the instance security group admits inbound traffic of protocol
`proto` on `port` from anywhere. -/
def ingressAllows (proto : String) (port : Nat) : Bool :=
  instancesSecurityGroup.ingress.any fun r => ruleAllows r proto port ("0.0.0.0/0")

/-- Whether the instance security group admits outbound traffic of protocol
`proto` on `port` to anywhere. -/
def egressAllows (proto : String) (port : Nat) : Bool :=
  instancesSecurityGroup.egress.any fun r => ruleAllows r proto port ("0.0.0.0/0")

/-- `userData.extraBootcmdLines` (source lines 118–126), applied to the value of
the cluster identifier: the boot commands run on every instance.  Each line is
the source's template literal with the interpolation written as string
concatenation; `\x27` is the single-quote character. -/
def userDataBootcmdLines (clusterId : String) : List String :=
  [ "- echo ECS_CLUSTER=\x27" ++ clusterId ++ "\x27 >> /etc/ecs/ecs.config"
  , "- echo ECS_ENABLE_CONTAINER_METADATA=true >> /etc/ecs/ecs.config"
  , "- echo ECS_RESERVED_MEMORY=256 >> /etc/ecs/ecs.config" ]

/-- The `templateParameters` record of the auto-scaling group. -/
structure TemplateParameters where
  minSize : Nat
  maxSize : Nat
deriving DecidableEq

/-- The claim-relevant arguments of the `awsx.autoscaling.AutoScalingGroup`
named `dev-asg` (source lines 129–143); `securityGroups` holds the logical name
of `instancesSecurityGroup`, standing for its cloud-assigned id. -/
structure AsgArgs where
  templateParameters : TemplateParameters
  instanceType : String
  securityGroups : List String
deriving DecidableEq

/-- `asg` (source lines 129–143). -/
def asg : AsgArgs where
  templateParameters := { minSize := 1, maxSize := 2 }
  instanceType := "t2.micro"
  securityGroups := ["dev-instances-sg"]

/-- Fleet sizes admitted by the auto-scaling group configuration. -/
def asgSizePermitted (n : Nat) : Bool :=
  decide (asg.templateParameters.minSize ≤ n) && decide (n ≤ asg.templateParameters.maxSize)

/-- The capacity provider `dev-capacity` (source lines 146–153); the ASG ARN is
modelled by the scaling group's logical name. -/
structure CapacityProviderArgs where
  name : String
  autoScalingGroupArn : String
deriving DecidableEq

/-- `capacityProvider` (source lines 146–153). -/
def capacityProvider : CapacityProviderArgs where
  name := "dev-capacity"
  autoScalingGroupArn := "dev-asg"

/-- A CloudWatch metric as configured at the call site
`awsx.ecs.metrics.memoryReservation (cluster, statistic Average, unit Percent)`
(source line 168); the metric name and namespace are the ones that awsx helper
denotes, and `clusterDimension` records which cluster the metric is scoped to. -/
structure MetricArgs where
  metricName : String
  namespaceName : String
  clusterDimension : String
  statistic : String
  unit : String
deriving DecidableEq

/-- The metric tracked by the scaling policy (source line 168). -/
def memoryReservationMetric : MetricArgs where
  metricName := "MemoryReservation"
  namespaceName := "AWS/ECS"
  clusterDimension := "dev-cluster"
  statistic := "Average"
  unit := "Percent"

/-- Arguments of one `scaleToTrackMetric` target-tracking policy. -/
structure TargetTrackingPolicyArgs where
  metric : MetricArgs
  targetValue : Nat
deriving DecidableEq

/-- The single `asg.scaleToTrackMetric` call (source lines 165–171). -/
def scaleMemoryReserv : TargetTrackingPolicyArgs where
  metric := memoryReservationMetric
  targetValue := 80

/-- All scaling policies attached to the auto-scaling group: the source makes
exactly one `scaleToTrackMetric` call (source lines 165–171). -/
def asgScalingPolicies : List (String × TargetTrackingPolicyArgs) :=
  [("scale-memory-reserv", scaleMemoryReserv)]

/-- Modelled from the spec: the cloud provider's target-tracking engine
("A tracking policy increases capacity when average memory reservation across
the fleet exceeds 80%, and decreases it otherwise, up to the configured
maximum") — one adjustment step, clamped to the scaling group's size range. -/
def targetTrackingStep (p : TargetTrackingPolicyArgs) (avg capacity : Nat) : Nat :=
  if p.targetValue < avg then min (capacity + 1) asg.templateParameters.maxSize
  else max (capacity - 1) asg.templateParameters.minSize

/-- One `hostPort`/`containerPort` mapping of a container. -/
structure PortMapping where
  hostPort : Nat
  containerPort : Nat
deriving DecidableEq

/-- The `healthCheck` record of a container. -/
structure HealthCheckArgs where
  command : List String
  interval : Nat
  startPeriod : Nat
  retries : Nat
  timeout : Nat
deriving DecidableEq

/-- One container of a task definition; `image` holds the logical name of the
docker-build image resource. -/
structure ContainerArgs where
  image : String
  portMappings : List PortMapping
  memoryReservation : Nat
  memory : Nat
  healthCheck : HealthCheckArgs
deriving DecidableEq

/-- The `nginx` container of the task definition (source lines 180–201). -/
def nginxContainer : ContainerArgs where
  image := "nginx-img"
  portMappings := [{ hostPort := 80, containerPort := 80 }]
  memoryReservation := 256
  memory := 256
  healthCheck :=
    { command := ["CMD-SHELL", "curl --fail http://localhost || exit 1"]
    , interval := 30
    , startPeriod := 5
    , retries := 3
    , timeout := 5 }

/-- Argument record of the `awsx.ecs.EC2TaskDefinition`; containers are a named
association list as in the source's object literal. -/
structure TaskDefinitionArgs where
  networkMode : String
  containers : List (String × ContainerArgs)
deriving DecidableEq

/-- `taskDefinition` (source lines 173–203). -/
def taskDefinition : TaskDefinitionArgs where
  networkMode := "host"
  containers := [("nginx", nginxContainer)]

/-- One capacity-provider strategy entry of a service. -/
structure CapacityProviderStrategy where
  capacityProvider : String
  base : Nat
  weight : Nat
deriving DecidableEq

/-- One ordered placement strategy entry of a service. -/
structure PlacementStrategy where
  type : String
  field : String
deriving DecidableEq

/-- The claim-relevant arguments of the `awsx.ecs.CapacityProviderService`
named `nginx-svc` (source lines 207–221). -/
structure ServiceArgs where
  capacityProviderStrategies : List CapacityProviderStrategy
  orderedPlacementStrategies : List PlacementStrategy
  desiredCount : Nat
  deploymentMinimumHealthyPercent : Nat
  deploymentMaximumPercent : Nat
deriving DecidableEq

/-- `service` (source lines 207–221). -/
def service : ServiceArgs where
  capacityProviderStrategies := [{ capacityProvider := capacityProvider.name, base := 1, weight := 1 }]
  orderedPlacementStrategies := [{ type := "spread", field := "instanceId" }]
  desiredCount := 1
  deploymentMinimumHealthyPercent := 0
  deploymentMaximumPercent := 100

/-- The largest number of tasks the deployment configuration lets run at once
during a rollout: `floor (deploymentMaximumPercent / 100 * desiredCount)`. -/
def maxTasksDuringDeploy : Nat :=
  service.deploymentMaximumPercent * service.desiredCount / 100

/-- A character admissible in the random suffix: lowercase letter or digit
(the generator is configured with `special := false` and `upper := false`). -/
def isLowerAlnum (c : Char) : Bool :=
  (decide ('a' ≤ c) && decide (c ≤ 'z')) || (decide ('0' ≤ c) && decide (c ≤ '9'))

/-- A string the random generator can produce under `clusterIdentifierArgs`:
length 6, no uppercase, no special characters. -/
def isRandomSuffix (s : String) : Bool :=
  s.length == clusterIdentifierArgs.length && s.data.all isLowerAlnum

/-- Whether a string matches the pattern `dev-cluster-[a-z0-9]\x7b6\x7d`. -/
def matchesClusterPattern (s : String) : Bool :=
  s.data.take 12 == "dev-cluster-".data
    && (s.data.drop 12).length == 6
    && (s.data.drop 12).all isLowerAlnum

/-- A bootcmd line of the shape the spec describes: `echo kv` appended to the
ECS agent configuration file `/etc/ecs/ecs.config`. -/
def appendsToEcsConfig (kv : String) : String :=
  "- echo " ++ kv ++ " >> /etc/ecs/ecs.config"

/-- Claim C1: with host networking, `deploymentMaximumPercent` 100, minimum
healthy percent 0 and desired count 1, the number of tasks the rollout may run
at once — `floor (deploymentMaximumPercent / 100 * desiredCount)` = 1 — never
exceeds the number of distinct hosts available, for any fleet size at least the
scaling group's minimum of 1; so no deployment state needs two tasks on one
host. -/
theorem deploy_respects_one_task_per_host (hosts : Nat)
    (h : asg.templateParameters.minSize ≤ hosts) :
    taskDefinition.networkMode = "host" ∧
    service.deploymentMaximumPercent = 100 ∧
    service.deploymentMinimumHealthyPercent = 0 ∧
    service.desiredCount = 1 ∧
    maxTasksDuringDeploy = 1 ∧
    maxTasksDuringDeploy ≤ hosts := by
  refine ⟨rfl, rfl, rfl, rfl, rfl, ?_⟩
  have h1 : asg.templateParameters.minSize = 1 := rfl
  have h2 : maxTasksDuringDeploy = 1 := rfl
  omega

/-- Claim C1 witness: with exactly one host available (the minimum fleet), the
rollout cap of tasks fits. -/
theorem deploy_respects_one_task_per_host_witness :
    maxTasksDuringDeploy ≤ 1 :=
  (deploy_respects_one_task_per_host 1 (by decide)).2.2.2.2.2

/-- Claim C2: for every suffix the random generator can produce (length 6, only
lowercase alphanumeric characters), the cluster identifier is the base name,
a hyphen, and the suffix, and matches `dev-cluster-[a-z0-9]\x7b6\x7d`. -/
theorem cluster_name_matches_pattern (s : String) (h : isRandomSuffix s = true) :
    clusterIdentifier s = "dev-cluster-" ++ s ∧
    matchesClusterPattern (clusterIdentifier s) = true := by
  have hpre : clusterIdentifier s = "dev-cluster-" ++ s := by
    show clusterName ++ "-" ++ s = "dev-cluster-" ++ s
    have e : (clusterName ++ "-" : String) = "dev-cluster-" := rfl
    rw [e]
  refine ⟨hpre, ?_⟩
  rw [hpre]
  unfold matchesClusterPattern
  rw [String.data_append]
  have h12 : ("dev-cluster-".data).length = 12 := rfl
  rw [← h12, List.take_left, List.drop_left]
  simp only [isRandomSuffix, clusterIdentifierArgs, Bool.and_eq_true, beq_iff_eq] at h
  have hlen : s.data.length = 6 := h.1
  simp [hlen, h.2]

/-- Claim C2 witness: a concrete suffix produces a name of the right shape. -/
theorem cluster_name_matches_pattern_witness :
    clusterIdentifier ("x1y2z3") = "dev-cluster-x1y2z3" ∧
    matchesClusterPattern (clusterIdentifier ("x1y2z3")) = true := by
  have h := cluster_name_matches_pattern ("x1y2z3") (by decide)
  exact ⟨by rw [h.1]; decide, h.2⟩

/-- Claim C3: the instance security group has exactly one ingress rule — TCP
port 80 from 0.0.0.0/0 — and any inbound traffic it admits is TCP on port 80. -/
theorem ingress_only_port_80 :
    instancesSecurityGroup.ingress =
      [{ fromPort := 80, toPort := 80, protocol := "tcp", cidrBlocks := ["0.0.0.0/0"] }] ∧
    ∀ (proto : String) (port : Nat),
      ingressAllows proto port = true → proto = "tcp" ∧ port = 80 := by
  refine ⟨rfl, ?_⟩
  intro proto port h
  simp [ingressAllows, ruleAllows, instancesSecurityGroup] at h
  obtain ⟨⟨hp, hge⟩, hle⟩ := h
  exact ⟨hp.symm, le_antisymm hle hge⟩

/-- Claim C3 witness: the one admitted combination is indeed admitted. -/
theorem ingress_only_port_80_witness :
    ingressAllows "tcp" 80 = true ∧ ("tcp" = "tcp" ∧ (80 : Nat) = 80) :=
  ⟨by decide, ingress_only_port_80.2 "tcp" 80 (by decide)⟩

/-- Claim C4 counterexample: the egress rule's protocol is `tcp`, so the group
does not allow every protocol — outbound UDP and ICMP are rejected while TCP on
the same port is admitted. -/
theorem egress_not_unrestricted :
    egressAllows "udp" 53 = false ∧ egressAllows "icmp" 0 = false ∧
    egressAllows "tcp" 53 = true := by decide

/-- Claim C4 amended: egress is unrestricted over TCP only — every TCP port
0–65535 to 0.0.0.0/0 is allowed, and every egress rule of the group is a TCP
rule. -/
theorem egress_all_tcp_ports (port : Nat) (h : port ≤ 65535) :
    egressAllows "tcp" port = true ∧
    ∀ r ∈ instancesSecurityGroup.egress, r.protocol = "tcp" := by
  constructor
  · simp [egressAllows, ruleAllows, instancesSecurityGroup, h]
  · intro r hr
    simp [instancesSecurityGroup] at hr
    rw [hr]

/-- Claim C4 amended witness: a concrete TCP port is admitted. -/
theorem egress_all_tcp_ports_witness :
    egressAllows "tcp" 443 = true :=
  (egress_all_tcp_ports 443 (by decide)).1

/-- Claim C5: the scaling group is declared with minimum size 1 and maximum
size 2, and a fleet size is admitted by this configuration exactly when it lies
in the range [1, 2]. -/
theorem asg_size_range (n : Nat) :
    asg.templateParameters.minSize = 1 ∧ asg.templateParameters.maxSize = 2 ∧
    (asgSizePermitted n = true ↔ 1 ≤ n ∧ n ≤ 2) := by
  refine ⟨rfl, rfl, ?_⟩
  simp [asgSizePermitted, asg]

/-- Claim C5 witness: size 1 is admitted. -/
theorem asg_size_range_witness :
    asgSizePermitted 1 = true :=
  ((asg_size_range 1).2.2).mpr (by decide)

/-- Claim C6: the task definition's single container sets both the soft memory
reservation and the hard memory limit to 256 MiB. -/
theorem container_memory_256 :
    taskDefinition.containers = [("nginx", nginxContainer)] ∧
    nginxContainer.memoryReservation = 256 ∧
    nginxContainer.memory = 256 :=
  ⟨rfl, rfl, rfl⟩

/-- Claim C7 counterexample: the probe the container actually runs is the shell
command with the `exit 1` fallback, not the bare curl command the claim
states. -/
theorem health_check_command_not_bare_curl :
    nginxContainer.healthCheck.command = ["CMD-SHELL", "curl --fail http://localhost || exit 1"] ∧
    nginxContainer.healthCheck.command ≠ ["CMD-SHELL", "curl --fail http://localhost"] ∧
    ¬ ("curl --fail http://localhost" ∈ nginxContainer.healthCheck.command) := by
  refine ⟨rfl, ?_, ?_⟩ <;> decide

/-- Claim C7 amended: the health check runs the shell command
`curl --fail http://localhost || exit 1` (via CMD-SHELL) every 30 s with a 5 s
start grace period and a 5 s timeout, and the container is marked failed after
3 consecutive failed probes. -/
theorem health_check_configuration :
    nginxContainer.healthCheck.command = ["CMD-SHELL", "curl --fail http://localhost || exit 1"] ∧
    nginxContainer.healthCheck.interval = 30 ∧
    nginxContainer.healthCheck.startPeriod = 5 ∧
    nginxContainer.healthCheck.timeout = 5 ∧
    nginxContainer.healthCheck.retries = 3 :=
  ⟨rfl, rfl, rfl, rfl, rfl⟩

/-- Claim C8: for every cluster identifier the boot-time user data is exactly
three lines appended to /etc/ecs/ecs.config — the cluster name, the container
metadata flag set true, and 256 reserved memory, in that order. -/
theorem user_data_three_lines (clusterId : String) :
    (userDataBootcmdLines clusterId).length = 3 ∧
    userDataBootcmdLines clusterId =
      [ appendsToEcsConfig ("ECS_CLUSTER=\x27" ++ clusterId ++ "\x27")
      , appendsToEcsConfig ("ECS_ENABLE_CONTAINER_METADATA=true")
      , appendsToEcsConfig ("ECS_RESERVED_MEMORY=256") ] := by
  refine ⟨rfl, ?_⟩
  have e1 : ("- echo " ++ "ECS_CLUSTER=\x27" : String) = "- echo ECS_CLUSTER=\x27" := rfl
  have e2 : ("\x27" ++ " >> /etc/ecs/ecs.config" : String) = "\x27 >> /etc/ecs/ecs.config" := rfl
  have h1 : "- echo ECS_CLUSTER=\x27" ++ clusterId ++ "\x27 >> /etc/ecs/ecs.config"
      = appendsToEcsConfig ("ECS_CLUSTER=\x27" ++ clusterId ++ "\x27") := by
    unfold appendsToEcsConfig
    simp only [← String.append_assoc]
    rw [e1, String.append_assoc ("- echo ECS_CLUSTER=\x27" ++ clusterId) ("\x27")
      (" >> /etc/ecs/ecs.config"), e2]
  unfold userDataBootcmdLines
  rw [h1]
  rfl

/-- Claim C8 witness: the user data for a concrete generated identifier has
exactly three lines. -/
theorem user_data_three_lines_witness :
    (userDataBootcmdLines (clusterIdentifier ("abc123"))).length = 3 :=
  (user_data_three_lines (clusterIdentifier ("abc123"))).1

/-- Claim C9: the service asks for one task, one spread placement strategy over
the instance identifier field, and one capacity-provider strategy referencing
the created capacity provider with base 1 and weight 1. -/
theorem service_strategies :
    service.desiredCount = 1 ∧
    service.orderedPlacementStrategies = [{ type := "spread", field := "instanceId" }] ∧
    service.capacityProviderStrategies =
      [{ capacityProvider := capacityProvider.name, base := 1, weight := 1 }] :=
  ⟨rfl, rfl, rfl⟩

/-- Claim C10: exactly one scaling policy is attached to the scaling group — a
target-tracking policy on the cluster's average memory-reservation metric in
percent with target 80 — and the (spec-modelled) tracking step raises capacity
when the average exceeds 80, lowers it otherwise, and never exceeds the
configured maximum. -/
theorem scaling_policy_tracks_memory :
    asgScalingPolicies = [("scale-memory-reserv", scaleMemoryReserv)] ∧
    scaleMemoryReserv.metric.metricName = "MemoryReservation" ∧
    scaleMemoryReserv.metric.statistic = "Average" ∧
    scaleMemoryReserv.metric.unit = "Percent" ∧
    scaleMemoryReserv.targetValue = 80 ∧
    ∀ avg cap : Nat, 1 ≤ cap → cap ≤ 2 →
      (80 < avg → cap ≤ targetTrackingStep scaleMemoryReserv avg cap) ∧
      (avg ≤ 80 → targetTrackingStep scaleMemoryReserv avg cap ≤ cap) ∧
      targetTrackingStep scaleMemoryReserv avg cap ≤ asg.templateParameters.maxSize := by
  refine ⟨rfl, rfl, rfl, rfl, rfl, ?_⟩
  intro avg cap h1 h2
  have htv : scaleMemoryReserv.targetValue = 80 := rfl
  have hmax : asg.templateParameters.maxSize = 2 := rfl
  have hmin : asg.templateParameters.minSize = 1 := rfl
  unfold targetTrackingStep
  rw [htv, hmax, hmin]
  by_cases h : 80 < avg
  · simp only [if_pos h]
    exact ⟨fun _ => by omega, fun hle => by omega, by omega⟩
  · simp only [if_neg h]
    exact ⟨fun hgt => by omega, fun _ => by omega, by omega⟩

/-- Claim C10 witness: with one running instance and average reservation 81%,
the tracking step raises capacity (to the maximum 2). -/
theorem scaling_policy_tracks_memory_witness :
    targetTrackingStep scaleMemoryReserv 81 1 = 2 ∧
    1 ≤ targetTrackingStep scaleMemoryReserv 81 1 :=
  ⟨by decide, (scaling_policy_tracks_memory.2.2.2.2.2 81 1 (by decide) (by decide)).1 (by decide)⟩

end PulumiEcs
